import Mathlib

/-!
# riberry battery display firmware: voltage-to-percentage curve and bar meter

Shallow embedding of `firmware/include/battery_display/battery_display.h`
and of `loop()` in `firmware/atom_s3_rosserial_message_display/src/main.cpp`.

Modelling conventions.

* `float` values are exact rationals (`ℚ`); rounding, infinities and NaN are
  outside the model.
* `int` / `int32_t` values are `Int`; a `uint8_t` is a `Nat` below 256.
* The LCD is the list of `M5.Lcd` calls issued, in order (`DrawCmd`).
  A call to the vendor colour composer `M5.Lcd.color565(r, g, b)` is kept
  symbolically, by its three arguments.
* `M5.Lcd.width()` and `M5.Lcd.height()` (macros `LCD_W`, `LCD_H`) are
  parameters `W` and `H`.
-/

/-! ## Data model -/

/-- Colour arguments handed to the LCD: the vendor constants used by the
sketch, and calls of `M5.Lcd.color565`. -/
inductive Color where
  | BLACK
  | WHITE
  | MAROON
  | YELLOW
  | color565 (r g b : Nat)
  deriving DecidableEq, Repr

/-- One call on `M5.Lcd`. -/
inductive DrawCmd where
  | clear
  | setCursor (x y : Int)
  | fillScreen (c : Color)
  | fillRect (x y w h : Int) (c : Color)
  | fillRoundRect (x y w h r : Int) (c : Color)
  | setTextColor (c : Color)
  | printf (fmt : String) (x : ℚ)
  | print (n : Nat)
  | drawString (s : String) (x y font : Int)
  deriving DecidableEq

/-- The two data members of `class BatteryDisplay` that the display logic
reads (`nh_` and the subscriber object are link plumbing). -/
structure BatteryDisplay where
  bat_cell_ : Int
  battery_voltage_ : ℚ
  deriving DecidableEq

/-- A (cell-average volts, percent) anchor of the discharge curve. -/
structure Breakpoint where
  volts : ℚ
  percent : ℚ
  deriving DecidableEq

namespace BatteryDisplay

/-! ## Constants of `class BatteryDisplay` -/

def VOLTAGE_100P : ℚ := 4.2
def VOLTAGE_90P : ℚ := 4.085
def VOLTAGE_80P : ℚ := 3.999
def VOLTAGE_70P : ℚ := 3.936
def VOLTAGE_60P : ℚ := 3.883
def VOLTAGE_50P : ℚ := 3.839
def VOLTAGE_40P : ℚ := 3.812
def VOLTAGE_30P : ℚ := 3.791
def VOLTAGE_20P : ℚ := 3.747
def VOLTAGE_10P : ℚ := 3.1
def VOLTAGE_0P : ℚ := 3.0

/-! ## `calcPercentage` -/

/-- `float BatteryDisplay::calcPercentage(float voltage)`: the if / else-if
chain of the source, branch for branch. `input_cell` is computed and never
used, as in the source. -/
def calcPercentage (self : BatteryDisplay) (voltage : ℚ) : ℚ :=
  let average_voltage := voltage / (self.bat_cell_ : ℚ)
  let _input_cell := voltage / VOLTAGE_100P
  if average_voltage > VOLTAGE_90P then
    (average_voltage - VOLTAGE_90P) / (VOLTAGE_100P - VOLTAGE_90P) * 10 + 90
  else if average_voltage > VOLTAGE_80P then
    (average_voltage - VOLTAGE_80P) / (VOLTAGE_90P - VOLTAGE_80P) * 10 + 80
  else if average_voltage > VOLTAGE_70P then
    (average_voltage - VOLTAGE_70P) / (VOLTAGE_80P - VOLTAGE_70P) * 10 + 70
  else if average_voltage > VOLTAGE_60P then
    (average_voltage - VOLTAGE_60P) / (VOLTAGE_70P - VOLTAGE_60P) * 10 + 60
  else if average_voltage > VOLTAGE_50P then
    (average_voltage - VOLTAGE_50P) / (VOLTAGE_60P - VOLTAGE_50P) * 10 + 50
  else if average_voltage > VOLTAGE_40P then
    (average_voltage - VOLTAGE_40P) / (VOLTAGE_50P - VOLTAGE_40P) * 10 + 40
  else if average_voltage > VOLTAGE_30P then
    (average_voltage - VOLTAGE_30P) / (VOLTAGE_40P - VOLTAGE_30P) * 10 + 30
  else if average_voltage > VOLTAGE_20P then
    (average_voltage - VOLTAGE_20P) / (VOLTAGE_30P - VOLTAGE_20P) * 10 + 20
  else if average_voltage > VOLTAGE_10P then
    (average_voltage - VOLTAGE_10P) / (VOLTAGE_20P - VOLTAGE_10P) * 10 + 10
  else
    (average_voltage - VOLTAGE_0P) / (VOLTAGE_10P - VOLTAGE_0P) * 10

/-! ## Table-driven reference (from the specification's wording) -/

/-- The curve table of the specification, highest breakpoint first. -/
def curve : List Breakpoint :=
  [⟨4.2, 100⟩, ⟨4.085, 90⟩, ⟨3.999, 80⟩, ⟨3.936, 70⟩, ⟨3.883, 60⟩, ⟨3.839, 50⟩,
   ⟨3.812, 40⟩, ⟨3.791, 30⟩, ⟨3.747, 20⟩, ⟨3.1, 10⟩, ⟨3.0, 0⟩]

/-- The breakpoints that can serve as the lower end of an interpolation
segment above 3.1 V: every table entry except the two ends. -/
def lowBreakpoints : List Breakpoint :=
  [⟨3.1, 10⟩, ⟨3.747, 20⟩, ⟨3.791, 30⟩, ⟨3.812, 40⟩, ⟨3.839, 50⟩, ⟨3.883, 60⟩,
   ⟨3.936, 70⟩, ⟨3.999, 80⟩, ⟨4.085, 90⟩]

/-- Keep the candidate with the larger voltage. -/
def pickHigher (best : Option Breakpoint) (b : Breakpoint) : Option Breakpoint :=
  match best with
  | none => some b
  | some c => if c.volts < b.volts then some b else some c

/-- Keep the candidate with the smaller voltage. -/
def pickLower (best : Option Breakpoint) (b : Breakpoint) : Option Breakpoint :=
  match best with
  | none => some b
  | some c => if b.volts < c.volts then some b else some c

/-- The highest breakpoint of `bs` whose voltage `a` strictly exceeds. -/
def highestExceeded (bs : List Breakpoint) (a : ℚ) : Option Breakpoint :=
  bs.foldl (fun best b => if a > b.volts then pickHigher best b else best) none

/-- The next-higher breakpoint of `bs` above `low`: the lowest one whose
voltage is strictly above `low.volts`. -/
def nextHigher (bs : List Breakpoint) (low : Breakpoint) : Option Breakpoint :=
  bs.foldl (fun best b => if b.volts > low.volts then pickLower best b else best) none

/-- Linear interpolation between two breakpoints, as written in the
specification. -/
def interpolate (low high : Breakpoint) (a : ℚ) : ℚ :=
  (a - low.volts) / (high.volts - low.volts) * 10 + low.percent

/-- Table-driven piecewise-linear reference: find the highest breakpoint that
the cell average exceeds, then interpolate towards the next-higher one. -/
def tablePercentage (a : ℚ) : Option ℚ :=
  match highestExceeded lowBreakpoints a with
  | none => none
  | some low =>
    match nextHigher curve low with
    | none => none
    | some high => some (interpolate low high a)

/-- Adjacent breakpoints of the curve, as pairs (high, low). -/
def adjacentPairs : List (Breakpoint × Breakpoint) :=
  curve.zip curve.tail

/-- The if / else-if chain of `calcPercentage` as a function of the cell
average: `calcPercentage` with one cell. -/
def cellPercentage (a : ℚ) : ℚ :=
  calcPercentage ⟨1, 0⟩ a

/-! ## `updateVoltage` -/

/-- Modelled from the spec: the Arduino core macro `constrain(amt, low, high)`
is not among the sources. The specification says the ratio is "clamped to
[0,1]": below `low` gives `low`, above `high` gives `high`, anything else is
unchanged. -/
def constrain (amt low high : ℚ) : ℚ :=
  if amt < low then low else if amt > high then high else amt

/-- The C cast `(uint8_t)x` of a `float`: truncation towards zero, kept to
eight bits. Every value cast in `updateVoltage` lies in 0..255. -/
def castUInt8 (x : ℚ) : Nat :=
  (Int.tdiv x.num x.den % 256).toNat

/-- Local `uint8_t barNum = 10` of `updateVoltage`. -/
def barNum : Nat := 10

/-- Local `voltageRatio` of `updateVoltage` after its two assignments:
`calcPercentage(battery_voltage_) / 100`, then `constrain(.., 0.0f, 1.0f)`. -/
def voltageRatio (self : BatteryDisplay) : ℚ :=
  constrain (self.calcPercentage self.battery_voltage_ / 100) 0 1

/-- Colour of bar `k` in the meter loop: dark gray, replaced by the gradient
colour when `voltageRatio > float(k+1) / barNum`. -/
def segmentColor (voltageRatio : ℚ) (k : Nat) : Color :=
  if voltageRatio > ((k + 1 : Nat) : ℚ) / (barNum : ℚ) then
    Color.color565
      (castUInt8 (255 - 255 * ((k : ℚ) / ((barNum - 1 : Nat) : ℚ))))
      (castUInt8 (255 * ((k : ℚ) / ((barNum - 1 : Nat) : ℚ)))) 0
  else
    Color.color565 16 16 16

/-- The `for (byte k = 0; k < barNum; k++)` loop of `updateVoltage`. -/
def drawMeter (W H : Int) (voltageRatio : ℚ) : List DrawCmd :=
  let rect_x : Int := 0
  let rect_h : Int := 7
  let rect_w : Int := W
  let radius : Int := 3
  (List.range barNum).map fun (k : Nat) =>
    let rect_y : Int := H - rect_h - (rect_h + 2) * (k : Int)
    DrawCmd.fillRoundRect rect_x rect_y rect_w rect_h radius (segmentColor voltageRatio k)

/-- `void BatteryDisplay::updateVoltage()`: the LCD calls it issues. -/
def updateVoltage (W H : Int) (self : BatteryDisplay) : List DrawCmd :=
  let voltageRatio := self.voltageRatio
  [ DrawCmd.fillRect 1 20 60 16 Color.BLACK,
    DrawCmd.fillRect (Int.tdiv W 2 + 17) 20 32 16 Color.BLACK,
    DrawCmd.setTextColor Color.WHITE,
    DrawCmd.setCursor 2 21,
    DrawCmd.printf "%0.2f" self.battery_voltage_,
    DrawCmd.drawString "V" (Int.tdiv W 2) 22 1,
    DrawCmd.setCursor (Int.tdiv W 2 + 25) 21,
    DrawCmd.print (castUInt8 (voltageRatio * 100)),
    DrawCmd.drawString "%" (W - 12) 22 1 ]
  ++ drawMeter W H voltageRatio

/-- `void BatteryDisplay::batteryVoltageCallback(const std_msgs::Float32& msg)`. -/
def batteryVoltageCallback (self : BatteryDisplay) (msg : ℚ) : BatteryDisplay :=
  { self with battery_voltage_ := msg }

end BatteryDisplay

/-! ## `loop()` of `main.cpp` -/

/-- What the rosserial link does during one iteration of `loop()`: the
samples `nh.spinOnce()` hands to the voltage callback, in order, and the
answer of `nh.connected()` afterwards. -/
structure Link where
  received : List ℚ
  connected : Bool

/-- `nh.spinOnce()`: every delivered sample runs the subscriber callback. -/
def spinOnce (link : Link) (batDisp : BatteryDisplay) : BatteryDisplay :=
  link.received.foldl BatteryDisplay.batteryVoltageCallback batDisp

/-- One iteration of `void loop()`: the display object afterwards and the LCD
calls issued (`delay(500)` touches neither). -/
def loop (W H : Int) (link : Link) (batDisp : BatteryDisplay) :
    BatteryDisplay × List DrawCmd :=
  let batDisp := spinOnce link batDisp
  (batDisp,
    [DrawCmd.clear, DrawCmd.setCursor 0 0] ++
      if !link.connected then
        [DrawCmd.fillScreen (Color.color565 255 0 0)]
      else
        batDisp.updateVoltage W H)

/-! ## Observations on an LCD trace -/

/-- A numeric readout: `printf` of the voltage or `print` of the percentage. -/
def DrawCmd.isReadout : DrawCmd → Bool
  | DrawCmd.printf _ _ => true
  | DrawCmd.print _ => true
  | _ => false

/-- A bar-meter segment. -/
def DrawCmd.isSegment : DrawCmd → Bool
  | DrawCmd.fillRoundRect _ _ _ _ _ _ => true
  | _ => false

/-- A full-screen fill. -/
def DrawCmd.isFillScreen : DrawCmd → Bool
  | DrawCmd.fillScreen _ => true
  | _ => false

/-- Indices of the bars drawn lit, that is, not in the dark gray
`color565(16,16,16)`. -/
def litSegments (voltageRatio : ℚ) : List Nat :=
  (List.range BatteryDisplay.barNum).filter fun k =>
    decide (BatteryDisplay.segmentColor voltageRatio k ≠ Color.color565 16 16 16)

/-- The numbers shown by `M5.Lcd.print`, in order. -/
def printedPercentages (cmds : List DrawCmd) : List Nat :=
  cmds.filterMap fun c =>
    match c with
    | DrawCmd.print n => some n
    | _ => none

/-! # Theorems -/

namespace BatteryDisplay

/-! ## The chain, one branch at a time -/

theorem calcPercentage_eq_cellPercentage (self : BatteryDisplay) (voltage : ℚ) :
    self.calcPercentage voltage = cellPercentage (voltage / (self.bat_cell_ : ℚ)) := by
  simp only [calcPercentage, cellPercentage, Int.cast_one, div_one]

theorem mul_cell_div_cell (n : Int) (hn : 0 < n) (x : ℚ) : x * (n : ℚ) / (n : ℚ) = x := by
  have hq : (n : ℚ) ≠ 0 := by exact_mod_cast hn.ne'
  field_simp

theorem cellPercentage_seg0 (a : ℚ) (hhi : a ≤ 3.1) :
    cellPercentage a = (a - 3.0) / (3.1 - 3.0) * 10 := by
  simp only [cellPercentage, calcPercentage, Int.cast_one, div_one, VOLTAGE_100P, VOLTAGE_90P, VOLTAGE_80P, VOLTAGE_70P,
    VOLTAGE_60P, VOLTAGE_50P, VOLTAGE_40P, VOLTAGE_30P, VOLTAGE_20P, VOLTAGE_10P, VOLTAGE_0P]
  norm_num at hhi ⊢
  split_ifs <;> linarith

theorem cellPercentage_seg10 (a : ℚ) (hlo : 3.1 < a) (hhi : a ≤ 3.747) :
    cellPercentage a = (a - 3.1) / (3.747 - 3.1) * 10 + 10 := by
  simp only [cellPercentage, calcPercentage, Int.cast_one, div_one, VOLTAGE_100P, VOLTAGE_90P, VOLTAGE_80P, VOLTAGE_70P,
    VOLTAGE_60P, VOLTAGE_50P, VOLTAGE_40P, VOLTAGE_30P, VOLTAGE_20P, VOLTAGE_10P, VOLTAGE_0P]
  norm_num at hlo hhi ⊢
  split_ifs <;> linarith

theorem cellPercentage_seg20 (a : ℚ) (hlo : 3.747 < a) (hhi : a ≤ 3.791) :
    cellPercentage a = (a - 3.747) / (3.791 - 3.747) * 10 + 20 := by
  simp only [cellPercentage, calcPercentage, Int.cast_one, div_one, VOLTAGE_100P, VOLTAGE_90P, VOLTAGE_80P, VOLTAGE_70P,
    VOLTAGE_60P, VOLTAGE_50P, VOLTAGE_40P, VOLTAGE_30P, VOLTAGE_20P, VOLTAGE_10P, VOLTAGE_0P]
  norm_num at hlo hhi ⊢
  split_ifs <;> linarith

theorem cellPercentage_seg30 (a : ℚ) (hlo : 3.791 < a) (hhi : a ≤ 3.812) :
    cellPercentage a = (a - 3.791) / (3.812 - 3.791) * 10 + 30 := by
  simp only [cellPercentage, calcPercentage, Int.cast_one, div_one, VOLTAGE_100P, VOLTAGE_90P, VOLTAGE_80P, VOLTAGE_70P,
    VOLTAGE_60P, VOLTAGE_50P, VOLTAGE_40P, VOLTAGE_30P, VOLTAGE_20P, VOLTAGE_10P, VOLTAGE_0P]
  norm_num at hlo hhi ⊢
  split_ifs <;> linarith

theorem cellPercentage_seg40 (a : ℚ) (hlo : 3.812 < a) (hhi : a ≤ 3.839) :
    cellPercentage a = (a - 3.812) / (3.839 - 3.812) * 10 + 40 := by
  simp only [cellPercentage, calcPercentage, Int.cast_one, div_one, VOLTAGE_100P, VOLTAGE_90P, VOLTAGE_80P, VOLTAGE_70P,
    VOLTAGE_60P, VOLTAGE_50P, VOLTAGE_40P, VOLTAGE_30P, VOLTAGE_20P, VOLTAGE_10P, VOLTAGE_0P]
  norm_num at hlo hhi ⊢
  split_ifs <;> linarith

theorem cellPercentage_seg50 (a : ℚ) (hlo : 3.839 < a) (hhi : a ≤ 3.883) :
    cellPercentage a = (a - 3.839) / (3.883 - 3.839) * 10 + 50 := by
  simp only [cellPercentage, calcPercentage, Int.cast_one, div_one, VOLTAGE_100P, VOLTAGE_90P, VOLTAGE_80P, VOLTAGE_70P,
    VOLTAGE_60P, VOLTAGE_50P, VOLTAGE_40P, VOLTAGE_30P, VOLTAGE_20P, VOLTAGE_10P, VOLTAGE_0P]
  norm_num at hlo hhi ⊢
  split_ifs <;> linarith

theorem cellPercentage_seg60 (a : ℚ) (hlo : 3.883 < a) (hhi : a ≤ 3.936) :
    cellPercentage a = (a - 3.883) / (3.936 - 3.883) * 10 + 60 := by
  simp only [cellPercentage, calcPercentage, Int.cast_one, div_one, VOLTAGE_100P, VOLTAGE_90P, VOLTAGE_80P, VOLTAGE_70P,
    VOLTAGE_60P, VOLTAGE_50P, VOLTAGE_40P, VOLTAGE_30P, VOLTAGE_20P, VOLTAGE_10P, VOLTAGE_0P]
  norm_num at hlo hhi ⊢
  split_ifs <;> linarith

theorem cellPercentage_seg70 (a : ℚ) (hlo : 3.936 < a) (hhi : a ≤ 3.999) :
    cellPercentage a = (a - 3.936) / (3.999 - 3.936) * 10 + 70 := by
  simp only [cellPercentage, calcPercentage, Int.cast_one, div_one, VOLTAGE_100P, VOLTAGE_90P, VOLTAGE_80P, VOLTAGE_70P,
    VOLTAGE_60P, VOLTAGE_50P, VOLTAGE_40P, VOLTAGE_30P, VOLTAGE_20P, VOLTAGE_10P, VOLTAGE_0P]
  norm_num at hlo hhi ⊢
  split_ifs <;> linarith

theorem cellPercentage_seg80 (a : ℚ) (hlo : 3.999 < a) (hhi : a ≤ 4.085) :
    cellPercentage a = (a - 3.999) / (4.085 - 3.999) * 10 + 80 := by
  simp only [cellPercentage, calcPercentage, Int.cast_one, div_one, VOLTAGE_100P, VOLTAGE_90P, VOLTAGE_80P, VOLTAGE_70P,
    VOLTAGE_60P, VOLTAGE_50P, VOLTAGE_40P, VOLTAGE_30P, VOLTAGE_20P, VOLTAGE_10P, VOLTAGE_0P]
  norm_num at hlo hhi ⊢
  split_ifs <;> linarith

theorem cellPercentage_seg90 (a : ℚ) (hlo : 4.085 < a) :
    cellPercentage a = (a - 4.085) / (4.2 - 4.085) * 10 + 90 := by
  have h : a > VOLTAGE_90P := hlo
  simp only [cellPercentage, calcPercentage, Int.cast_one, div_one]
  rw [if_pos h]
  simp only [VOLTAGE_100P, VOLTAGE_90P]

/-! ## The table-driven reference, one segment at a time -/

theorem tablePercentage_seg10 (a : ℚ) (hlo : 3.1 < a) (hhi : a ≤ 3.747) :
    tablePercentage a = some ((a - 3.1) / (3.747 - 3.1) * 10 + 10) := by
  have facts : a > 3.1 ∧ ¬ a > 3.747 ∧ ¬ a > 3.791 ∧ ¬ a > 3.812 ∧ ¬ a > 3.839 ∧
      ¬ a > 3.883 ∧ ¬ a > 3.936 ∧ ¬ a > 3.999 ∧ ¬ a > 4.085 := by
    norm_num at hlo hhi ⊢
    refine ⟨?_, ?_, ?_, ?_, ?_, ?_, ?_, ?_, ?_⟩ <;> linarith
  obtain ⟨f1, f2, f3, f4, f5, f6, f7, f8, f9⟩ := facts
  simp only [tablePercentage, highestExceeded, lowBreakpoints, List.foldl, pickHigher,
    f1, f2, f3, f4, f5, f6, f7, f8, f9, if_true, if_false]
  norm_num [nextHigher, curve, pickLower, interpolate]

theorem tablePercentage_seg20 (a : ℚ) (hlo : 3.747 < a) (hhi : a ≤ 3.791) :
    tablePercentage a = some ((a - 3.747) / (3.791 - 3.747) * 10 + 20) := by
  have facts : a > 3.1 ∧ a > 3.747 ∧ ¬ a > 3.791 ∧ ¬ a > 3.812 ∧ ¬ a > 3.839 ∧
      ¬ a > 3.883 ∧ ¬ a > 3.936 ∧ ¬ a > 3.999 ∧ ¬ a > 4.085 := by
    norm_num at hlo hhi ⊢
    refine ⟨?_, ?_, ?_, ?_, ?_, ?_, ?_, ?_, ?_⟩ <;> linarith
  obtain ⟨f1, f2, f3, f4, f5, f6, f7, f8, f9⟩ := facts
  simp only [tablePercentage, highestExceeded, lowBreakpoints, List.foldl, pickHigher,
    f1, f2, f3, f4, f5, f6, f7, f8, f9, if_true, if_false]
  norm_num [nextHigher, curve, pickLower, interpolate]

theorem tablePercentage_seg30 (a : ℚ) (hlo : 3.791 < a) (hhi : a ≤ 3.812) :
    tablePercentage a = some ((a - 3.791) / (3.812 - 3.791) * 10 + 30) := by
  have facts : a > 3.1 ∧ a > 3.747 ∧ a > 3.791 ∧ ¬ a > 3.812 ∧ ¬ a > 3.839 ∧
      ¬ a > 3.883 ∧ ¬ a > 3.936 ∧ ¬ a > 3.999 ∧ ¬ a > 4.085 := by
    norm_num at hlo hhi ⊢
    refine ⟨?_, ?_, ?_, ?_, ?_, ?_, ?_, ?_, ?_⟩ <;> linarith
  obtain ⟨f1, f2, f3, f4, f5, f6, f7, f8, f9⟩ := facts
  simp only [tablePercentage, highestExceeded, lowBreakpoints, List.foldl, pickHigher,
    f1, f2, f3, f4, f5, f6, f7, f8, f9, if_true, if_false]
  norm_num [nextHigher, curve, pickLower, interpolate]

theorem tablePercentage_seg40 (a : ℚ) (hlo : 3.812 < a) (hhi : a ≤ 3.839) :
    tablePercentage a = some ((a - 3.812) / (3.839 - 3.812) * 10 + 40) := by
  have facts : a > 3.1 ∧ a > 3.747 ∧ a > 3.791 ∧ a > 3.812 ∧ ¬ a > 3.839 ∧
      ¬ a > 3.883 ∧ ¬ a > 3.936 ∧ ¬ a > 3.999 ∧ ¬ a > 4.085 := by
    norm_num at hlo hhi ⊢
    refine ⟨?_, ?_, ?_, ?_, ?_, ?_, ?_, ?_, ?_⟩ <;> linarith
  obtain ⟨f1, f2, f3, f4, f5, f6, f7, f8, f9⟩ := facts
  simp only [tablePercentage, highestExceeded, lowBreakpoints, List.foldl, pickHigher,
    f1, f2, f3, f4, f5, f6, f7, f8, f9, if_true, if_false]
  norm_num [nextHigher, curve, pickLower, interpolate]

theorem tablePercentage_seg50 (a : ℚ) (hlo : 3.839 < a) (hhi : a ≤ 3.883) :
    tablePercentage a = some ((a - 3.839) / (3.883 - 3.839) * 10 + 50) := by
  have facts : a > 3.1 ∧ a > 3.747 ∧ a > 3.791 ∧ a > 3.812 ∧ a > 3.839 ∧
      ¬ a > 3.883 ∧ ¬ a > 3.936 ∧ ¬ a > 3.999 ∧ ¬ a > 4.085 := by
    norm_num at hlo hhi ⊢
    refine ⟨?_, ?_, ?_, ?_, ?_, ?_, ?_, ?_, ?_⟩ <;> linarith
  obtain ⟨f1, f2, f3, f4, f5, f6, f7, f8, f9⟩ := facts
  simp only [tablePercentage, highestExceeded, lowBreakpoints, List.foldl, pickHigher,
    f1, f2, f3, f4, f5, f6, f7, f8, f9, if_true, if_false]
  norm_num [nextHigher, curve, pickLower, interpolate]

theorem tablePercentage_seg60 (a : ℚ) (hlo : 3.883 < a) (hhi : a ≤ 3.936) :
    tablePercentage a = some ((a - 3.883) / (3.936 - 3.883) * 10 + 60) := by
  have facts : a > 3.1 ∧ a > 3.747 ∧ a > 3.791 ∧ a > 3.812 ∧ a > 3.839 ∧
      a > 3.883 ∧ ¬ a > 3.936 ∧ ¬ a > 3.999 ∧ ¬ a > 4.085 := by
    norm_num at hlo hhi ⊢
    refine ⟨?_, ?_, ?_, ?_, ?_, ?_, ?_, ?_, ?_⟩ <;> linarith
  obtain ⟨f1, f2, f3, f4, f5, f6, f7, f8, f9⟩ := facts
  simp only [tablePercentage, highestExceeded, lowBreakpoints, List.foldl, pickHigher,
    f1, f2, f3, f4, f5, f6, f7, f8, f9, if_true, if_false]
  norm_num [nextHigher, curve, pickLower, interpolate]

theorem tablePercentage_seg70 (a : ℚ) (hlo : 3.936 < a) (hhi : a ≤ 3.999) :
    tablePercentage a = some ((a - 3.936) / (3.999 - 3.936) * 10 + 70) := by
  have facts : a > 3.1 ∧ a > 3.747 ∧ a > 3.791 ∧ a > 3.812 ∧ a > 3.839 ∧
      a > 3.883 ∧ a > 3.936 ∧ ¬ a > 3.999 ∧ ¬ a > 4.085 := by
    norm_num at hlo hhi ⊢
    refine ⟨?_, ?_, ?_, ?_, ?_, ?_, ?_, ?_, ?_⟩ <;> linarith
  obtain ⟨f1, f2, f3, f4, f5, f6, f7, f8, f9⟩ := facts
  simp only [tablePercentage, highestExceeded, lowBreakpoints, List.foldl, pickHigher,
    f1, f2, f3, f4, f5, f6, f7, f8, f9, if_true, if_false]
  norm_num [nextHigher, curve, pickLower, interpolate]

theorem tablePercentage_seg80 (a : ℚ) (hlo : 3.999 < a) (hhi : a ≤ 4.085) :
    tablePercentage a = some ((a - 3.999) / (4.085 - 3.999) * 10 + 80) := by
  have facts : a > 3.1 ∧ a > 3.747 ∧ a > 3.791 ∧ a > 3.812 ∧ a > 3.839 ∧
      a > 3.883 ∧ a > 3.936 ∧ a > 3.999 ∧ ¬ a > 4.085 := by
    norm_num at hlo hhi ⊢
    refine ⟨?_, ?_, ?_, ?_, ?_, ?_, ?_, ?_, ?_⟩ <;> linarith
  obtain ⟨f1, f2, f3, f4, f5, f6, f7, f8, f9⟩ := facts
  simp only [tablePercentage, highestExceeded, lowBreakpoints, List.foldl, pickHigher,
    f1, f2, f3, f4, f5, f6, f7, f8, f9, if_true, if_false]
  norm_num [nextHigher, curve, pickLower, interpolate]

theorem tablePercentage_seg90 (a : ℚ) (hlo : 4.085 < a) :
    tablePercentage a = some ((a - 4.085) / (4.2 - 4.085) * 10 + 90) := by
  have facts : a > 3.1 ∧ a > 3.747 ∧ a > 3.791 ∧ a > 3.812 ∧ a > 3.839 ∧
      a > 3.883 ∧ a > 3.936 ∧ a > 3.999 ∧ a > 4.085 := by
    norm_num at hlo ⊢
    refine ⟨?_, ?_, ?_, ?_, ?_, ?_, ?_, ?_, ?_⟩ <;> linarith
  obtain ⟨f1, f2, f3, f4, f5, f6, f7, f8, f9⟩ := facts
  simp only [tablePercentage, highestExceeded, lowBreakpoints, List.foldl, pickHigher,
    f1, f2, f3, f4, f5, f6, f7, f8, f9, if_true, if_false]
  norm_num [nextHigher, curve, pickLower, interpolate]

/-! ## The curve -/

/-- C1 (refinement): for a positive cell count and a cell average above 3.1 V,
the if / else-if chain of `calcPercentage` returns what the table-driven
reference returns: interpolation between the highest breakpoint among
3.1 .. 4.085 that the average strictly exceeds and the next-higher breakpoint
of the table. -/
theorem calcPercentage_eq_tablePercentage (self : BatteryDisplay) (voltage : ℚ)
    (_hcell : 0 < self.bat_cell_) (ha : voltage / (self.bat_cell_ : ℚ) > 3.1) :
    tablePercentage (voltage / (self.bat_cell_ : ℚ)) = some (self.calcPercentage voltage) := by
  rw [calcPercentage_eq_cellPercentage]
  generalize voltage / (self.bat_cell_ : ℚ) = a at ha
  by_cases h20 : a ≤ 3.747
  · rw [tablePercentage_seg10 a ha h20, cellPercentage_seg10 a ha h20]
  by_cases h30 : a ≤ 3.791
  · rw [tablePercentage_seg20 a (not_le.mp h20) h30, cellPercentage_seg20 a (not_le.mp h20) h30]
  by_cases h40 : a ≤ 3.812
  · rw [tablePercentage_seg30 a (not_le.mp h30) h40, cellPercentage_seg30 a (not_le.mp h30) h40]
  by_cases h50 : a ≤ 3.839
  · rw [tablePercentage_seg40 a (not_le.mp h40) h50, cellPercentage_seg40 a (not_le.mp h40) h50]
  by_cases h60 : a ≤ 3.883
  · rw [tablePercentage_seg50 a (not_le.mp h50) h60, cellPercentage_seg50 a (not_le.mp h50) h60]
  by_cases h70 : a ≤ 3.936
  · rw [tablePercentage_seg60 a (not_le.mp h60) h70, cellPercentage_seg60 a (not_le.mp h60) h70]
  by_cases h80 : a ≤ 3.999
  · rw [tablePercentage_seg70 a (not_le.mp h70) h80, cellPercentage_seg70 a (not_le.mp h70) h80]
  by_cases h90 : a ≤ 4.085
  · rw [tablePercentage_seg80 a (not_le.mp h80) h90, cellPercentage_seg80 a (not_le.mp h80) h90]
  · rw [tablePercentage_seg90 a (not_le.mp h90), cellPercentage_seg90 a (not_le.mp h90)]

theorem calcPercentage_eq_tablePercentage_witness :
    (0 : Int) < 4 ∧ (16 : ℚ) / ((4 : Int) : ℚ) > 3.1 ∧
      tablePercentage ((16 : ℚ) / ((4 : Int) : ℚ)) = some (calcPercentage ⟨4, 16⟩ 16) :=
  ⟨by decide, by norm_num,
    calcPercentage_eq_tablePercentage ⟨4, 16⟩ 16 (by decide) (by norm_num)⟩

theorem cellPercentage_at_breakpoint (b : Breakpoint) (hb : b ∈ curve) :
    cellPercentage b.volts = b.percent := by
  simp only [curve, List.mem_cons, List.mem_singleton, List.not_mem_nil, or_false] at hb
  rcases hb with h | h | h | h | h | h | h | h | h | h | h <;> rw [h] <;>
    norm_num [cellPercentage, calcPercentage, VOLTAGE_100P, VOLTAGE_90P, VOLTAGE_80P,
      VOLTAGE_70P, VOLTAGE_60P, VOLTAGE_50P, VOLTAGE_40P, VOLTAGE_30P, VOLTAGE_20P, VOLTAGE_10P,
      VOLTAGE_0P]

/-- C2 (boundary exactness): for a positive cell count `n` and every breakpoint
`(v_b, p_b)` of the curve table, `calcPercentage (v_b * n)` is exactly `p_b`. -/
theorem calcPercentage_at_breakpoint (self : BatteryDisplay) (hcell : 0 < self.bat_cell_)
    (b : Breakpoint) (hb : b ∈ curve) :
    self.calcPercentage (b.volts * (self.bat_cell_ : ℚ)) = b.percent := by
  rw [calcPercentage_eq_cellPercentage, mul_cell_div_cell _ hcell]
  exact cellPercentage_at_breakpoint b hb

theorem calcPercentage_at_breakpoint_witness :
    (⟨3.839, 50⟩ : Breakpoint) ∈ curve ∧
      calcPercentage ⟨4, 0⟩ ((⟨3.839, 50⟩ : Breakpoint).volts * ((4 : Int) : ℚ)) = 50 :=
  ⟨by simp [curve], calcPercentage_at_breakpoint ⟨4, 0⟩ (by decide) ⟨3.839, 50⟩ (by simp [curve])⟩

/-- C3 (monotonicity): for a positive cell count, any pair of adjacent
breakpoints of the curve, and pack voltages `v1 < v2` whose cell averages both
lie strictly between the two breakpoints, `calcPercentage v1 < calcPercentage v2`. -/
theorem calcPercentage_strictMono_between_breakpoints (self : BatteryDisplay)
    (hcell : 0 < self.bat_cell_) (p : Breakpoint × Breakpoint) (hp : p ∈ adjacentPairs)
    (v1 v2 : ℚ) (hlt : v1 < v2)
    (h1lo : p.2.volts < v1 / (self.bat_cell_ : ℚ)) (h1hi : v1 / (self.bat_cell_ : ℚ) < p.1.volts)
    (h2lo : p.2.volts < v2 / (self.bat_cell_ : ℚ)) (h2hi : v2 / (self.bat_cell_ : ℚ) < p.1.volts) :
    self.calcPercentage v1 < self.calcPercentage v2 := by
  have hq : (0 : ℚ) < (self.bat_cell_ : ℚ) := by exact_mod_cast hcell
  have hdiv : v1 / (self.bat_cell_ : ℚ) < v2 / (self.bat_cell_ : ℚ) :=
    div_lt_div_of_pos_right hlt hq
  rw [calcPercentage_eq_cellPercentage, calcPercentage_eq_cellPercentage]
  generalize v1 / (self.bat_cell_ : ℚ) = a1 at h1lo h1hi hdiv
  generalize v2 / (self.bat_cell_ : ℚ) = a2 at h2lo h2hi hdiv
  simp only [adjacentPairs, curve, List.tail_cons, List.zip_cons_cons, List.zip_nil_right,
    List.mem_cons, List.mem_singleton, List.not_mem_nil, or_false] at hp
  rcases hp with h | h | h | h | h | h | h | h | h | h <;> subst h <;>
    simp only at h1lo h1hi h2lo h2hi
  · rw [cellPercentage_seg90 a1 h1lo, cellPercentage_seg90 a2 h2lo]
    norm_num
    linarith
  · rw [cellPercentage_seg80 a1 h1lo h1hi.le, cellPercentage_seg80 a2 h2lo h2hi.le]
    norm_num
    linarith
  · rw [cellPercentage_seg70 a1 h1lo h1hi.le, cellPercentage_seg70 a2 h2lo h2hi.le]
    norm_num
    linarith
  · rw [cellPercentage_seg60 a1 h1lo h1hi.le, cellPercentage_seg60 a2 h2lo h2hi.le]
    norm_num
    linarith
  · rw [cellPercentage_seg50 a1 h1lo h1hi.le, cellPercentage_seg50 a2 h2lo h2hi.le]
    norm_num
    linarith
  · rw [cellPercentage_seg40 a1 h1lo h1hi.le, cellPercentage_seg40 a2 h2lo h2hi.le]
    norm_num
    linarith
  · rw [cellPercentage_seg30 a1 h1lo h1hi.le, cellPercentage_seg30 a2 h2lo h2hi.le]
    norm_num
    linarith
  · rw [cellPercentage_seg20 a1 h1lo h1hi.le, cellPercentage_seg20 a2 h2lo h2hi.le]
    norm_num
    linarith
  · rw [cellPercentage_seg10 a1 h1lo h1hi.le, cellPercentage_seg10 a2 h2lo h2hi.le]
    norm_num
    linarith
  · rw [cellPercentage_seg0 a1 h1hi.le, cellPercentage_seg0 a2 h2hi.le]
    norm_num
    linarith

theorem calcPercentage_strictMono_between_breakpoints_witness :
    (3.999 : ℚ) < 16 / ((4 : Int) : ℚ) ∧ (161 / 10 : ℚ) / ((4 : Int) : ℚ) < 4.085 ∧
      calcPercentage ⟨4, 0⟩ 16 < calcPercentage ⟨4, 0⟩ (161 / 10) :=
  ⟨by norm_num, by norm_num,
    calcPercentage_strictMono_between_breakpoints ⟨4, 0⟩ (by decide)
      (⟨4.085, 90⟩, ⟨3.999, 80⟩) (by simp [adjacentPairs, curve]) 16 (161 / 10) (by norm_num)
      (by norm_num) (by norm_num) (by norm_num) (by norm_num)⟩

/-- C4 (extrapolation law): for a positive cell count and a cell average `a`
at or below 3.1 V, `calcPercentage` is `(a - 3.0) / (3.1 - 3.0) * 10`, the
3.0 -> 0 / 3.1 -> 10 segment; hence it is strictly negative for `a < 3.0`. -/
theorem calcPercentage_extrapolation (self : BatteryDisplay) (voltage : ℚ)
    (_hcell : 0 < self.bat_cell_) (ha : voltage / (self.bat_cell_ : ℚ) ≤ 3.1) :
    self.calcPercentage voltage = (voltage / (self.bat_cell_ : ℚ) - 3.0) / (3.1 - 3.0) * 10 ∧
      (voltage / (self.bat_cell_ : ℚ) < 3.0 → self.calcPercentage voltage < 0) := by
  rw [calcPercentage_eq_cellPercentage, cellPercentage_seg0 _ ha]
  refine ⟨rfl, fun h => ?_⟩
  norm_num at h ⊢
  linarith

theorem calcPercentage_extrapolation_witness :
    (8 : ℚ) / ((4 : Int) : ℚ) ≤ 3.1 ∧
      (calcPercentage ⟨4, 8⟩ 8 = ((8 : ℚ) / ((4 : Int) : ℚ) - 3.0) / (3.1 - 3.0) * 10 ∧
        ((8 : ℚ) / ((4 : Int) : ℚ) < 3.0 → calcPercentage ⟨4, 8⟩ 8 < 0)) :=
  ⟨by norm_num, calcPercentage_extrapolation ⟨4, 8⟩ 8 (by decide) (by norm_num)⟩

/-! ## The clamped ratio -/

theorem constrain_unit (p : ℚ) :
    0 ≤ constrain (p / 100) 0 1 ∧ constrain (p / 100) 0 1 ≤ 1 ∧
      (p < 0 → constrain (p / 100) 0 1 = 0) ∧
      (p > 100 → constrain (p / 100) 0 1 = 1) ∧
      (0 ≤ p → p ≤ 100 → constrain (p / 100) 0 1 = p / 100) := by
  unfold constrain
  refine ⟨?_, ?_, ?_, ?_, ?_⟩
  · split_ifs <;> linarith
  · split_ifs <;> linarith
  · intro h
    rw [if_pos (by linarith)]
  · intro h
    rw [if_neg (by linarith), if_pos (by linarith)]
  · intro h0 h1
    rw [if_neg (by linarith), if_neg (by linarith)]

theorem calcPercentage_zero_volt : calcPercentage ⟨4, 0⟩ 0 = -300 := by
  norm_num [calcPercentage, VOLTAGE_100P, VOLTAGE_90P, VOLTAGE_80P,
      VOLTAGE_70P, VOLTAGE_60P, VOLTAGE_50P, VOLTAGE_40P, VOLTAGE_30P, VOLTAGE_20P, VOLTAGE_10P,
      VOLTAGE_0P]

theorem voltageRatio_zero_volt : voltageRatio ⟨4, 0⟩ = 0 := by
  simp only [voltageRatio]
  rw [calcPercentage_zero_volt]
  norm_num [constrain]

theorem calcPercentage_full : calcPercentage ⟨4, 16.8⟩ 16.8 = 100 := by
  norm_num [calcPercentage, VOLTAGE_100P, VOLTAGE_90P]

theorem voltageRatio_full : voltageRatio ⟨4, 16.8⟩ = 1 := by
  simp only [voltageRatio]
  rw [calcPercentage_full]
  norm_num [constrain]

theorem calcPercentage_half : calcPercentage ⟨4, 15.356⟩ 15.356 = 50 := by
  norm_num [calcPercentage, VOLTAGE_100P, VOLTAGE_90P, VOLTAGE_80P,
      VOLTAGE_70P, VOLTAGE_60P, VOLTAGE_50P, VOLTAGE_40P, VOLTAGE_30P, VOLTAGE_20P, VOLTAGE_10P,
      VOLTAGE_0P]

theorem voltageRatio_half : voltageRatio ⟨4, 15.356⟩ = 1 / 2 := by
  simp only [voltageRatio]
  rw [calcPercentage_half]
  norm_num [constrain]

/-- C5: for every stored voltage and positive cell count, the bar-meter ratio of
`updateVoltage` (`calcPercentage(battery_voltage_) / 100` after `constrain`)
lies in [0, 1]: it is 0 when the percentage is below 0, 1 when it is above
100, and percentage / 100 otherwise. -/
theorem voltageRatio_clamped (self : BatteryDisplay) (_hcell : 0 < self.bat_cell_) :
    0 ≤ self.voltageRatio ∧ self.voltageRatio ≤ 1 ∧
      (self.calcPercentage self.battery_voltage_ < 0 → self.voltageRatio = 0) ∧
      (self.calcPercentage self.battery_voltage_ > 100 → self.voltageRatio = 1) ∧
      (0 ≤ self.calcPercentage self.battery_voltage_ →
        self.calcPercentage self.battery_voltage_ ≤ 100 →
        self.voltageRatio = self.calcPercentage self.battery_voltage_ / 100) :=
  constrain_unit (self.calcPercentage self.battery_voltage_)

theorem voltageRatio_clamped_witness :
    (0 : Int) < 4 ∧ voltageRatio ⟨4, 0⟩ = 0 :=
  ⟨by decide, (voltageRatio_clamped ⟨4, 0⟩ (by decide)).2.2.1
    (by rw [calcPercentage_zero_volt]; norm_num)⟩

/-! ## The bar meter -/

theorem castUInt8_eq_floor (x : ℚ) (h0 : 0 ≤ x) (h1 : x < 256) :
    ((castUInt8 x : Nat) : Int) = ⌊x⌋ := by
  have hnum : 0 ≤ x.num := Rat.num_nonneg.mpr h0
  have hden : (0 : Int) ≤ (x.den : Int) := Int.natCast_nonneg _
  have hfl : Int.tdiv x.num x.den = ⌊x⌋ := by
    rw [Int.tdiv_eq_ediv hnum hden, Rat.floor_def]
  have hf0 : 0 ≤ ⌊x⌋ := Int.floor_nonneg.mpr h0
  have hf1 : ⌊x⌋ < 256 := Int.floor_lt.mpr (by exact_mod_cast h1)
  unfold castUInt8
  rw [hfl, Int.emod_eq_of_lt hf0 hf1, Int.toNat_of_nonneg hf0]

theorem segmentColor_eq (voltageRatio : ℚ) (k : Nat) :
    segmentColor voltageRatio k =
      if voltageRatio > ((k : ℚ) + 1) / 10 then
        Color.color565 (castUInt8 (255 - 255 * (k : ℚ) / 9)) (castUInt8 (255 * (k : ℚ) / 9)) 0
      else Color.color565 16 16 16 := by
  have e1 : ((k + 1 : Nat) : ℚ) / ((10 : Nat) : ℚ) = ((k : ℚ) + 1) / 10 := by push_cast; ring
  have e2 : ((10 - 1 : Nat) : ℚ) = 9 := by norm_num
  have e3 : 255 * ((k : ℚ) / 9) = 255 * (k : ℚ) / 9 := by ring
  simp only [segmentColor, barNum]
  rw [e1, e2, e3]

theorem segmentColor_top_never_lit (self : BatteryDisplay) :
    segmentColor self.voltageRatio 9 = Color.color565 16 16 16 := by
  have hle : self.voltageRatio ≤ 1 :=
    (constrain_unit (self.calcPercentage self.battery_voltage_)).2.1
  rw [segmentColor_eq, if_neg]
  norm_num
  exact hle

/-- C6: in `updateVoltage` the meter loop draws, for every ratio and every
segment index `k` in 0..9, bar `k` as `fillRoundRect(0, H - 7 - 9k, W, 7, 3, c)`
where `c` is the gradient colour `color565(255 - 255k/9, 255k/9, 0)` if and
only if `ratio > (k+1)/10`, and the dark gray `color565(16,16,16)` otherwise.
The loop output is the tail of the `updateVoltage` trace, run on the clamped
ratio. -/
theorem updateVoltage_segment_lit_iff (W H : Int) (self : BatteryDisplay) (voltageRatio : ℚ)
    (k : Nat) (hk : k < 10) :
    (self.updateVoltage W H)[9 + k]? = (drawMeter W H self.voltageRatio)[k]? ∧
      ∃ c : Color,
        (drawMeter W H voltageRatio)[k]? =
            some (DrawCmd.fillRoundRect 0 (H - 7 - 9 * (k : Int)) W 7 3 c) ∧
          (voltageRatio > ((k : ℚ) + 1) / 10 →
            c = Color.color565 (castUInt8 (255 - 255 * (k : ℚ) / 9))
              (castUInt8 (255 * (k : ℚ) / 9)) 0) ∧
          (¬ voltageRatio > ((k : ℚ) + 1) / 10 → c = Color.color565 16 16 16) ∧
          (c ≠ Color.color565 16 16 16 ↔ voltageRatio > ((k : ℚ) + 1) / 10) := by
  refine ⟨?_, segmentColor voltageRatio k, ?_, ?_, ?_, ?_⟩
  · rw [Nat.add_comm]
    simp [updateVoltage, List.getElem?_cons_succ]
  · simp [drawMeter, barNum, List.getElem?_range hk]
  · intro h
    rw [segmentColor_eq, if_pos h]
  · intro h
    rw [segmentColor_eq, if_neg h]
  · rw [segmentColor_eq]
    by_cases h : voltageRatio > ((k : ℚ) + 1) / 10
    · simp [if_pos h, h]
    · simp [if_neg h, h]

theorem updateVoltage_segment_lit_iff_witness :
    (3 : Nat) < 10 ∧
      (drawMeter 128 128 (1 / 2))[(3 : Nat)]? =
        some (DrawCmd.fillRoundRect 0 (128 - 7 - 9 * ((3 : Nat) : Int)) 128 7 3
          (Color.color565 170 85 0)) := by
  refine ⟨by decide, ?_⟩
  obtain ⟨c, hc, hlit, -, -⟩ :=
    (updateVoltage_segment_lit_iff 128 128 ⟨4, 15.356⟩ (1 / 2) 3 (by decide)).2
  have hcol : c = Color.color565 170 85 0 := by
    rw [hlit (by norm_num)]
    norm_num [castUInt8]
    simp
  rw [hc, hcol]

/-- C7 (the code at the full-battery input): with 4 cells and 16.8 V stored,
`calcPercentage` is 100 and the clamped ratio is 1, yet only bars 0..8 are
lit: bar 9, the last call of `updateVoltage`, is drawn in dark gray
`color565(16,16,16)`, because `1 > 10/10` is false. -/
theorem updateVoltage_full_battery_top_segment_unlit (W H : Int) :
    calcPercentage ⟨4, 16.8⟩ 16.8 = 100 ∧ voltageRatio ⟨4, 16.8⟩ = 1 ∧
      litSegments (voltageRatio ⟨4, 16.8⟩) = [0, 1, 2, 3, 4, 5, 6, 7, 8] ∧
      (updateVoltage W H ⟨4, 16.8⟩)[18]? =
        some (DrawCmd.fillRoundRect 0 (H - 7 - 81) W 7 3 (Color.color565 16 16 16)) := by
  refine ⟨calcPercentage_full, voltageRatio_full, ?_, ?_⟩
  · rw [voltageRatio_full]
    norm_num [litSegments, List.range, List.range.loop, segmentColor, castUInt8, barNum,
      List.filter]
  · simp only [updateVoltage, voltageRatio_full]
    norm_num [drawMeter, List.range, List.range.loop, segmentColor, barNum]

/-- C8 (half battery): with 4 cells and 15.356 V stored, `calcPercentage` is 50,
the clamped ratio is 1/2, and `updateVoltage` draws exactly bars 0, 1, 2, 3
lit; bars 4..9 are dark gray. -/
theorem updateVoltage_half_battery_four_segments (W H : Int) :
    calcPercentage ⟨4, 15.356⟩ 15.356 = 50 ∧ voltageRatio ⟨4, 15.356⟩ = 1 / 2 ∧
      litSegments (voltageRatio ⟨4, 15.356⟩) = [0, 1, 2, 3] ∧
      (updateVoltage W H ⟨4, 15.356⟩).drop 9 =
        [ DrawCmd.fillRoundRect 0 (H - 7) W 7 3 (Color.color565 255 0 0),
          DrawCmd.fillRoundRect 0 (H - 7 - 9) W 7 3 (Color.color565 226 28 0),
          DrawCmd.fillRoundRect 0 (H - 7 - 18) W 7 3 (Color.color565 198 56 0),
          DrawCmd.fillRoundRect 0 (H - 7 - 27) W 7 3 (Color.color565 170 85 0),
          DrawCmd.fillRoundRect 0 (H - 7 - 36) W 7 3 (Color.color565 16 16 16),
          DrawCmd.fillRoundRect 0 (H - 7 - 45) W 7 3 (Color.color565 16 16 16),
          DrawCmd.fillRoundRect 0 (H - 7 - 54) W 7 3 (Color.color565 16 16 16),
          DrawCmd.fillRoundRect 0 (H - 7 - 63) W 7 3 (Color.color565 16 16 16),
          DrawCmd.fillRoundRect 0 (H - 7 - 72) W 7 3 (Color.color565 16 16 16),
          DrawCmd.fillRoundRect 0 (H - 7 - 81) W 7 3 (Color.color565 16 16 16) ] := by
  refine ⟨calcPercentage_half, voltageRatio_half, ?_, ?_⟩
  · rw [voltageRatio_half]
    norm_num [litSegments, List.range, List.range.loop, segmentColor, castUInt8, barNum,
      List.filter]
  · simp only [updateVoltage, voltageRatio_half]
    norm_num [drawMeter, List.range, List.range.loop, segmentColor, castUInt8, barNum,
      Int.tdiv_eq_ediv]
    simp

/-! ## The numeric readout -/

theorem printedPercentages_updateVoltage (W H : Int) (self : BatteryDisplay) :
    printedPercentages (self.updateVoltage W H) = [castUInt8 (self.voltageRatio * 100)] := by
  simp [printedPercentages, updateVoltage, drawMeter, List.filterMap_map, List.filterMap_cons]

/-- C9 (counterexample): with 4 cells and stored voltage 0, `calcPercentage` is
-300, and the only number `updateVoltage` prints as the percentage is 0: the
printed readout is clamped. -/
theorem updateVoltage_zero_volt_prints_zero :
    calcPercentage ⟨4, 0⟩ 0 = -300 ∧ printedPercentages (updateVoltage 128 128 ⟨4, 0⟩) = [0] := by
  refine ⟨calcPercentage_zero_volt, ?_⟩
  rw [printedPercentages_updateVoltage, voltageRatio_zero_volt]
  norm_num [castUInt8]

/-- C9 (amended): the percentage `updateVoltage` prints is the clamped ratio
times 100, truncated: it is the floor of `voltageRatio * 100`, never above
100, equal to 0 when `calcPercentage` is negative, to 100 when it is above 100,
and to the truncated percentage in between. -/
theorem updateVoltage_prints_clamped_percentage (W H : Int) (self : BatteryDisplay)
    (_hcell : 0 < self.bat_cell_) :
    printedPercentages (self.updateVoltage W H) = [castUInt8 (self.voltageRatio * 100)] ∧
      ((castUInt8 (self.voltageRatio * 100) : Nat) : Int) = ⌊self.voltageRatio * 100⌋ ∧
      castUInt8 (self.voltageRatio * 100) ≤ 100 ∧
      (self.calcPercentage self.battery_voltage_ < 0 → castUInt8 (self.voltageRatio * 100) = 0) ∧
      (self.calcPercentage self.battery_voltage_ > 100 →
        castUInt8 (self.voltageRatio * 100) = 100) ∧
      (0 ≤ self.calcPercentage self.battery_voltage_ →
        self.calcPercentage self.battery_voltage_ ≤ 100 →
        ((castUInt8 (self.voltageRatio * 100) : Nat) : Int) =
          ⌊self.calcPercentage self.battery_voltage_⌋) := by
  obtain ⟨h0, h1, hneg, hbig, hmid⟩ := constrain_unit (self.calcPercentage self.battery_voltage_)
  have hfloor := castUInt8_eq_floor (self.voltageRatio * 100)
    (by unfold voltageRatio; linarith) (by unfold voltageRatio; linarith)
  refine ⟨printedPercentages_updateVoltage W H self, hfloor, ?_, ?_, ?_, ?_⟩
  · have h : self.voltageRatio * 100 ≤ ((100 : Int) : ℚ) := by
      unfold voltageRatio; push_cast; linarith
    have hle : ⌊self.voltageRatio * 100⌋ ≤ 100 := by
      exact_mod_cast le_trans (Int.floor_le _) h
    omega
  · intro h
    have hr : self.voltageRatio = 0 := hneg h
    rw [hr]
    norm_num [castUInt8]
  · intro h
    have hr : self.voltageRatio = 1 := hbig h
    rw [hr]
    norm_num [castUInt8]
    simp
  · intro hp0 hp100
    have hr : self.voltageRatio * 100 = self.calcPercentage self.battery_voltage_ := by
      unfold voltageRatio
      rw [hmid hp0 hp100]
      ring
    rw [hfloor, hr]

theorem updateVoltage_prints_clamped_percentage_witness :
    (0 : Int) < 4 ∧ castUInt8 (voltageRatio ⟨4, 0⟩ * 100) = 0 :=
  ⟨by decide, (updateVoltage_prints_clamped_percentage 128 128 ⟨4, 0⟩ (by decide)).2.2.2.1
    (by rw [calcPercentage_zero_volt]; norm_num)⟩

end BatteryDisplay

/-! ## `loop()` -/

/-- C10: when the link reports not connected, one iteration of `loop()` issues
`clear`, `setCursor(0,0)` and the full-screen red fill, and nothing else: no
numeric readout, no bar-meter segment. When the link reports connected it
issues `clear`, `setCursor(0,0)` and the calls of `updateVoltage` on the
refreshed display object, and no full-screen fill. -/
theorem loop_disconnected_red_fill (W H : Int) (received : List ℚ) (batDisp : BatteryDisplay) :
    (loop W H ⟨received, false⟩ batDisp).2 =
        [DrawCmd.clear, DrawCmd.setCursor 0 0, DrawCmd.fillScreen (Color.color565 255 0 0)] ∧
      (loop W H ⟨received, false⟩ batDisp).2.any DrawCmd.isReadout = false ∧
      (loop W H ⟨received, false⟩ batDisp).2.any DrawCmd.isSegment = false ∧
      (loop W H ⟨received, true⟩ batDisp).2 =
        [DrawCmd.clear, DrawCmd.setCursor 0 0] ++
          (spinOnce ⟨received, true⟩ batDisp).updateVoltage W H ∧
      (loop W H ⟨received, true⟩ batDisp).2.any DrawCmd.isFillScreen = false := by
  refine ⟨?_, ?_, ?_, ?_, ?_⟩
  · simp [loop]
  · simp [loop, DrawCmd.isReadout]
  · simp [loop, DrawCmd.isSegment]
  · simp [loop]
  · simp [loop, BatteryDisplay.updateVoltage, BatteryDisplay.drawMeter, DrawCmd.isFillScreen]
